import Mathlib

/-!
# JWT session lifecycle: login, refresh, logout and the request guard

A shallow embedding of `backend/routes/auth.js` and `backend/middleware/auth.js`.

* The process-wide `refreshTokens` set is threaded through the handlers as a
  `Finset String`; every handler returns the new set together with its response.
* `jsonwebtoken` and `bcryptjs` are third-party collaborators: they are parameters of
  the handlers (`Jwt`, `compare`).  What the proofs assume about the token library is
  collected in `JwtContract`; `refJwt` is an executable codec that satisfies it.
* The clock read inside `jwt.sign` / `jwt.verify` is the explicit argument `now`
  (whole seconds).
* `req.body` is the parsed JSON object; a missing field reads as `undefined`.
-/

set_option autoImplicit false

namespace JwtAuth

/-! ## JavaScript values -/

/-- Values that a JSON request body or the user file can hold, plus `undefined`
for a missing field.  Arrays and objects are collapsed into `obj`: the handlers only
test them for truthiness and identity. -/
inductive JsVal where
  | undefined
  | null
  | bool (b : Bool)
  | num (n : Int)
  | str (s : String)
  | obj
  deriving DecidableEq, Repr

/-- JavaScript truthiness, as used by `!email`, `!password`, `!refreshToken`. -/
def JsVal.truthy : JsVal → Bool
  | .undefined => false
  | .null => false
  | .bool b => b
  | .num n => decide (n ≠ 0)
  | .str s => decide (s ≠ "")
  | .obj => true

/-- Strict equality `===`.  Two separately parsed objects are never identical. -/
def JsVal.strictEq : JsVal → JsVal → Bool
  | .obj, _ => false
  | _, .obj => false
  | a, b => decide (a = b)

/-- A thrown JavaScript error: the handlers look at `name` and `message` only. -/
structure JsError where
  name : String
  message : String
  deriving DecidableEq, Repr

deriving instance DecidableEq for Except

/-! ## The token library -/

/-- The object handed to `jwt.sign`: `{ userId, email, role }`. -/
structure Payload where
  userId : JsVal
  email : JsVal
  role : JsVal
  deriving DecidableEq, Repr

/-- The object returned by `jwt.verify`: the signed claims plus `iat` and `exp`. -/
structure Decoded where
  userId : JsVal
  email : JsVal
  role : JsVal
  iat : Option Nat
  exp : Option Nat
  deriving DecidableEq, Repr

/-- The part of `jsonwebtoken` the handlers call.
`sign payload secret expiresIn now` and `verify token secret now` either return or
throw; `timespan` reads an `expiresIn` string as a number of seconds. -/
structure Jwt where
  timespan : String → Option Nat
  sign : Payload → Option String → Option String → Nat → Except JsError String
  verify : String → Option String → Nat → Except JsError Decoded

/-- Calling `jwt.verify` on a request value: anything but a string is refused by the
library before it looks at the secret. -/
def jwtVerify (lib : Jwt) (token : JsVal) (secret : Option String) (now : Nat) :
    Except JsError Decoded :=
  match token with
  | .str t => lib.verify t secret now
  | _ => .error ⟨"JsonWebTokenError", "jwt must be a string"⟩

/-! ## Environment, user file, requests and responses -/

/-- The four `process.env` entries read by the handlers. -/
structure Env where
  JWT_ACCESS_SECRET : Option String
  JWT_REFRESH_SECRET : Option String
  ACCESS_TOKEN_EXPIRY : Option String
  REFRESH_TOKEN_EXPIRY : Option String

/-- One record of `data/users.json`. -/
structure User where
  id : JsVal
  email : JsVal
  passwordHash : JsVal
  name : JsVal
  role : JsVal
  deriving DecidableEq, Repr

/-- The `user` object of a successful login response. -/
structure Profile where
  id : JsVal
  email : JsVal
  name : JsVal
  role : JsVal
  deriving DecidableEq, Repr

/-- JSON bodies sent by the handlers. -/
inductive Body where
  | error (error message : String)
  | login (message accessToken refreshToken : String) (user : Profile)
  | refreshed (message accessToken : String)
  | message (message : String)
  deriving DecidableEq, Repr

/-- An HTTP response: `res.status(s).json(b)`; `res.json(b)` alone has status 200. -/
structure Response where
  status : Nat
  body : Body
  deriving DecidableEq, Repr

/-- Body of `POST /auth/login`. -/
structure LoginBody where
  email : JsVal
  password : JsVal

/-- Body of `POST /auth/refresh` and `POST /auth/logout`. -/
structure TokenBody where
  refreshToken : JsVal

/-! ## The refresh-token set -/

/-- The method `refreshTokens.has(v)`: the set only ever holds strings. -/
def setHas (refreshTokens : Finset String) : JsVal → Bool
  | .str t => decide (t ∈ refreshTokens)
  | _ => false

/-- The method `refreshTokens.delete(v)`. -/
def setDelete (refreshTokens : Finset String) : JsVal → Finset String
  | .str t => refreshTokens.erase t
  | _ => refreshTokens

/-! ## routes/auth.js -/

/-- The two identical 401 answers of the login handler. -/
def invalidCredentials : Response :=
  ⟨401, .error "Invalid credentials" "Email or password is incorrect"⟩

/-- The `catch` block of the login handler. -/
def catchLogin (e : JsError) : Response :=
  ⟨500, .error "Login failed" e.message⟩

/-- Handler of `POST /auth/login`. `compare` is `bcrypt.compare`. -/
def login (lib : Jwt) (compare : JsVal → JsVal → Except JsError Bool) (env : Env)
    (users : List User) (refreshTokens : Finset String) (body : LoginBody) (now : Nat) :
    Finset String × Response :=
  if !body.email.truthy || !body.password.truthy then
    (refreshTokens, ⟨400, .error "Missing credentials" "Email and password are required"⟩)
  else
    match users.find? (fun u => u.email.strictEq body.email) with
    | none => (refreshTokens, invalidCredentials)
    | some user =>
      match compare body.password user.passwordHash with
      | .error e => (refreshTokens, catchLogin e)
      | .ok false => (refreshTokens, invalidCredentials)
      | .ok true =>
        let payload : Payload := ⟨user.id, user.email, user.role⟩
        match lib.sign payload env.JWT_ACCESS_SECRET env.ACCESS_TOKEN_EXPIRY now with
        | .error e => (refreshTokens, catchLogin e)
        | .ok accessToken =>
          match lib.sign payload env.JWT_REFRESH_SECRET env.REFRESH_TOKEN_EXPIRY now with
          | .error e => (refreshTokens, catchLogin e)
          | .ok refreshToken =>
            (insert refreshToken refreshTokens,
              ⟨200, .login "Login successful" accessToken refreshToken
                ⟨user.id, user.email, user.name, user.role⟩⟩)

/-- The `catch` block of the refresh handler. -/
def catchRefresh (e : JsError) : Response :=
  if e.name = "TokenExpiredError" then
    ⟨401, .error "Refresh token expired" "Please login again"⟩
  else if e.name = "JsonWebTokenError" then
    ⟨403, .error "Invalid refresh token" "The provided refresh token is invalid"⟩
  else
    ⟨500, .error "Token refresh failed" e.message⟩

/-- Handler of `POST /auth/refresh`. -/
def refresh (lib : Jwt) (env : Env) (refreshTokens : Finset String) (body : TokenBody)
    (now : Nat) : Finset String × Response :=
  if !body.refreshToken.truthy then
    (refreshTokens, ⟨400, .error "Refresh token required" "No refresh token provided"⟩)
  else if !setHas refreshTokens body.refreshToken then
    (refreshTokens,
      ⟨403, .error "Invalid refresh token" "Refresh token not found or has been revoked"⟩)
  else
    match jwtVerify lib body.refreshToken env.JWT_REFRESH_SECRET now with
    | .error e => (refreshTokens, catchRefresh e)
    | .ok decoded =>
      match lib.sign ⟨decoded.userId, decoded.email, decoded.role⟩
          env.JWT_ACCESS_SECRET env.ACCESS_TOKEN_EXPIRY now with
      | .error e => (refreshTokens, catchRefresh e)
      | .ok newAccessToken =>
        (refreshTokens, ⟨200, .refreshed "Token refreshed successfully" newAccessToken⟩)

/-- Handler of `POST /auth/logout`. -/
def logout (refreshTokens : Finset String) (body : TokenBody) : Finset String × Response :=
  (if body.refreshToken.truthy then setDelete refreshTokens body.refreshToken
   else refreshTokens,
   ⟨200, .message "Logout successful"⟩)

/-! ## middleware/auth.js -/

/-- The space character that separates the scheme from the token. -/
def space : Char := Char.ofNat 32

/-- The call `s.split(c)` for a one-character separator, on the characters of `s`:
every occurrence of the separator ends a segment, so the result is never empty. -/
def splitChars (sep : Char) : List Char → List (List Char)
  | [] => [[]]
  | c :: cs =>
    if c = sep then [] :: splitChars sep cs
    else
      match splitChars sep cs with
      | [] => [[c]]
      | seg :: segs => (c :: seg) :: segs

/-- The expression `authHeader && authHeader.split(' ')[1]`; `none` is `undefined`. -/
def extractToken (authHeader : Option String) : Option String :=
  match authHeader with
  | none => none
  | some h =>
    if h = "" then some ""
    else ((splitChars space h.data).get? 1).map String.mk

/-- What the middleware did: the value left in `req.user`, whether `next()` ran, and
the response it sent, if any. -/
structure GuardOutcome where
  user : Option Decoded
  nextCalled : Bool
  response : Option Response
  deriving DecidableEq, Repr

/-- A rejection: a response, `req.user` untouched, `next()` not called. -/
def reject (r : Response) : GuardOutcome := ⟨none, false, some r⟩

/-- The `catch` block of the middleware. -/
def catchGuard (e : JsError) : Response :=
  if e.name = "TokenExpiredError" then
    ⟨401, .error "Token expired" "Access token has expired. Please refresh your token."⟩
  else if e.name = "JsonWebTokenError" then
    ⟨403, .error "Invalid token" "The provided token is invalid or malformed."⟩
  else
    ⟨500, .error "Token verification failed" e.message⟩

/-- The 401 sent when no token could be read from the header. -/
def tokenRequired : Response :=
  ⟨401, .error "Access token required" "No token provided in Authorization header"⟩

/-- The middleware `authenticateToken`; `authHeader` is `req.headers['authorization']`. -/
def authenticateToken (lib : Jwt) (env : Env) (authHeader : Option String) (now : Nat) :
    GuardOutcome :=
  match extractToken authHeader with
  | none => reject tokenRequired
  | some token =>
    if token = "" then reject tokenRequired
    else
      match lib.verify token env.JWT_ACCESS_SECRET now with
      | .ok decoded => ⟨some decoded, true, none⟩
      | .error e => reject (catchGuard e)

/-! ## A reference token codec

An executable stand-in for `jsonwebtoken`, used to run the handlers on concrete
requests.  A token spells out, in a space-free alphabet, the signing secret (standing
for the signature), `iat`, `exp` and the three claims. -/

/-- A string field: each character becomes two characters, then a closing dot. -/
def encStr : List Char → List Char
  | [] => ['.']
  | c :: cs => (if c = space then ['_', 's'] else ['c', c]) ++ encStr cs

/-- Reads back a string field and returns the unread input. -/
def decStr : List Char → Option (List Char × List Char)
  | [] => none
  | [c] => if c = '.' then some ([], []) else none
  | c :: d :: rest =>
    if c = '.' then some ([], d :: rest)
    else (decStr rest).map (fun r => ((if c = '_' then space else d) :: r.1, r.2))

/-- A number field: tally marks, then a closing dot. -/
def encNat (n : Nat) : List Char := List.replicate n 'i' ++ ['.']

/-- Reads back a number field and returns the unread input. -/
def decNat : List Char → Option (Nat × List Char)
  | [] => none
  | c :: cs =>
    if c = '.' then some (0, cs)
    else if c = 'i' then (decNat cs).map (fun r => (r.1 + 1, r.2))
    else none

/-- A claim value: one tag character, then the content. -/
def encVal : JsVal → List Char
  | .undefined => ['u']
  | .null => ['n']
  | .bool true => ['t']
  | .bool false => ['f']
  | .num (Int.ofNat k) => 'p' :: encNat k
  | .num (Int.negSucc k) => 'm' :: encNat k
  | .str s => 's' :: encStr s.data
  | .obj => ['o']

/-- Reads back a claim value and returns the unread input. -/
def decVal : List Char → Option (JsVal × List Char)
  | [] => none
  | c :: cs =>
    if c = 'u' then some (.undefined, cs)
    else if c = 'n' then some (.null, cs)
    else if c = 't' then some (.bool true, cs)
    else if c = 'f' then some (.bool false, cs)
    else if c = 'p' then (decNat cs).map (fun r => (.num (Int.ofNat r.1), r.2))
    else if c = 'm' then (decNat cs).map (fun r => (.num (Int.negSucc r.1), r.2))
    else if c = 's' then (decStr cs).map (fun r => (.str (String.mk r.1), r.2))
    else if c = 'o' then some (.obj, cs)
    else none

/-- The characters of a reference token. -/
def encToken (secret : String) (iat exp : Nat) (p : Payload) : List Char :=
  encStr secret.data ++ (encNat iat ++ (encNat exp ++
    (encVal p.userId ++ (encVal p.email ++ encVal p.role))))

/-- Reads back a reference token: secret, `iat`, `exp`, claims; nothing may follow. -/
def decToken (cs : List Char) : Option (String × Nat × Nat × Payload) :=
  (decStr cs).bind fun r1 =>
  (decNat r1.2).bind fun r2 =>
  (decNat r2.2).bind fun r3 =>
  (decVal r3.2).bind fun r4 =>
  (decVal r4.2).bind fun r5 =>
  (decVal r5.2).bind fun r6 =>
  if r6.2 = [] then some (String.mk r1.1, r2.1, r3.1, ⟨r4.1, r5.1, r6.1⟩) else none

/-- Seconds in one unit of a timespan: `s`, `m`, `h`, `d`. -/
def unitSeconds (c : Char) : Option Nat :=
  if c = 's' then some 1
  else if c = 'm' then some 60
  else if c = 'h' then some 3600
  else if c = 'd' then some 86400
  else none

/-- Reads the digits of a timespan, then its unit; a bare number counts milliseconds. -/
def spanDigits : Nat → List Char → Option Nat
  | acc, [] => some (acc / 1000)
  | acc, c :: cs =>
    if c.isDigit then spanDigits (acc * 10 + (c.toNat - 48)) cs
    else if cs = [] then (unitSeconds c).map (fun u => acc * u)
    else none

/-- The reference `timespan`: `15m`, `7d`, `30s`; it must start with a digit. -/
def refTimespan (e : String) : Option Nat :=
  match e.data with
  | [] => none
  | c :: cs => if c.isDigit then spanDigits 0 (c :: cs) else none

/-- The reference `jwt.sign`: it throws without a secret or a readable `expiresIn`. -/
def refSign (p : Payload) (secret expiresIn : Option String) (now : Nat) :
    Except JsError String :=
  match secret with
  | none => .error ⟨"Error", "secretOrPrivateKey must have a value"⟩
  | some s =>
    if s = "" then .error ⟨"Error", "secretOrPrivateKey must have a value"⟩
    else
      match expiresIn.bind refTimespan with
      | none => .error ⟨"Error", "expiresIn should be a number of seconds or a timespan"⟩
      | some d => .ok (String.mk (encToken s now (now + d) p))

/-- The reference `jwt.verify`: structure first, then the signature, then the expiry. -/
def refVerify (token : String) (secret : Option String) (now : Nat) :
    Except JsError Decoded :=
  match decToken token.data with
  | none => .error ⟨"JsonWebTokenError", "jwt malformed"⟩
  | some (s, iat, exp, p) =>
    match secret with
    | none => .error ⟨"JsonWebTokenError", "secret or public key must be provided"⟩
    | some k =>
      if k ≠ s then .error ⟨"JsonWebTokenError", "invalid signature"⟩
      else if exp ≤ now then .error ⟨"TokenExpiredError", "jwt expired"⟩
      else .ok ⟨p.userId, p.email, p.role, some iat, some exp⟩

/-- The reference token library. -/
def refJwt : Jwt := ⟨refTimespan, refSign, refVerify⟩

/-- A reference `bcrypt.compare`: the stored hash is the password behind a marker. -/
def refCompare (password hash : JsVal) : Except JsError Bool :=
  match password, hash with
  | .str p, .str h => .ok (decide (h = "$2a$" ++ p))
  | _, _ => .error ⟨"Error", "Illegal arguments"⟩

/-- A sample environment. -/
def sampleEnv : Env := ⟨some "acc", some "ref", some "2s", some "5s"⟩

/-- The access token the reference codec issues to the sample user at time 3. -/
def sampleAccessToken : String := "cacccc.iii.iiiii.pi.scac@cbc.cc.scucscecr."

/-- The refresh token the reference codec issues to the sample user at time 3. -/
def sampleRefreshToken : String := "crcecf.iii.iiiiiiii.pi.scac@cbc.cc.scucscecr."

/-- A token signed at time 3 with a secret that is not the refresh secret. -/
def foreignToken : String := "cocc.iii.iiiiiiii.pi.scac@cbc.cc.scucscecr."

/-- The sample environment with `JWT_ACCESS_SECRET` left unset. -/
def envWithoutAccessSecret : Env := ⟨none, some "ref", some "2s", some "5s"⟩

/-- A sample user file. -/
def sampleUsers : List User :=
  [⟨.num 1, .str "a@b.c", .str "$2a$pw", .str "Ann", .str "user"⟩]

/-! ## What the proofs assume about the token library -/

/-- The contract of `jsonwebtoken` used below; it is the TokenCodec contract of the
specification (section 4.1) read on `jwt.sign` and `jwt.verify`.
Signing fails only for a missing secret or an unreadable `expiresIn`; a token is a
non-empty string without spaces; a token verifies under its own secret, with its
claims, until `iat + expiresIn`, and is reported expired from then on; a verdict of
validity stands until the `exp` claim. -/
structure JwtContract (lib : Jwt) : Prop where
  sign_ok_iff : ∀ (p : Payload) (s e : Option String) (now : Nat),
    (∃ tok, lib.sign p s e now = .ok tok) ↔
      ∃ s0 e0 d, s = some s0 ∧ s0 ≠ "" ∧ e = some e0 ∧ lib.timespan e0 = some d
  token_shape : ∀ (p : Payload) (s e : Option String) (now : Nat) (tok : String),
    lib.sign p s e now = .ok tok → tok ≠ "" ∧ space ∉ tok.data
  verify_fresh : ∀ (p : Payload) (s e : String) (d now now' : Nat) (tok : String),
    lib.sign p (some s) (some e) now = .ok tok → lib.timespan e = some d →
    now' < now + d →
    lib.verify tok (some s) now' = .ok ⟨p.userId, p.email, p.role, some now, some (now + d)⟩
  verify_expired : ∀ (p : Payload) (s e : String) (d now now' : Nat) (tok : String),
    lib.sign p (some s) (some e) now = .ok tok → lib.timespan e = some d →
    now + d ≤ now' →
    ∃ m, lib.verify tok (some s) now' = .error ⟨"TokenExpiredError", m⟩
  verify_window : ∀ (tok : String) (k : Option String) (now now' : Nat) (d : Decoded),
    lib.verify tok k now = .ok d → now ≤ now' → (∀ x, d.exp = some x → now' < x) →
    lib.verify tok k now' = .ok d

/-- The refresh-token sets the running server can hold: it starts empty and changes
only through the three handlers. -/
inductive Reachable (lib : Jwt) (compare : JsVal → JsVal → Except JsError Bool)
    (env : Env) (users : List User) : Finset String → Prop where
  | init : Reachable lib compare env users ∅
  | login (s : Finset String) (body : LoginBody) (now : Nat) :
      Reachable lib compare env users s →
      Reachable lib compare env users (login lib compare env users s body now).1
  | refresh (s : Finset String) (body : TokenBody) (now : Nat) :
      Reachable lib compare env users s →
      Reachable lib compare env users (refresh lib env s body now).1
  | logout (s : Finset String) (body : TokenBody) :
      Reachable lib compare env users s →
      Reachable lib compare env users (logout s body).1

/-! ## The reference codec meets the contract -/

theorem decStr_encStr (l rest : List Char) : decStr (encStr l ++ rest) = some (l, rest) := by
  induction l with
  | nil => cases rest <;> simp [encStr, decStr]
  | cons c cs ih =>
    by_cases hc : c = space
    · have h : encStr (c :: cs) ++ rest = '_' :: 's' :: (encStr cs ++ rest) := by
        simp [encStr, hc]
      rw [h, decStr, if_neg (by decide), ih, hc]
      simp
    · have h : encStr (c :: cs) ++ rest = 'c' :: c :: (encStr cs ++ rest) := by
        simp [encStr, hc]
      rw [h, decStr, if_neg (by decide), ih, if_neg (by decide)]
      simp

theorem decNat_encNat (n : Nat) (rest : List Char) :
    decNat (encNat n ++ rest) = some (n, rest) := by
  induction n with
  | zero => simp [encNat, decNat]
  | succ k ih =>
    have h : encNat (k + 1) ++ rest = 'i' :: (encNat k ++ rest) := by
      simp [encNat, List.replicate_succ]
    rw [h, decNat, if_neg (by decide), if_pos rfl, ih]
    simp

theorem decVal_encVal (v : JsVal) (rest : List Char) :
    decVal (encVal v ++ rest) = some (v, rest) := by
  cases v with
  | undefined => simp [encVal, decVal]
  | null => simp [encVal, decVal]
  | bool b => cases b <;> simp [encVal, decVal]
  | num n =>
    cases n with
    | ofNat k => simp [encVal, decVal, decNat_encNat]
    | negSucc k => simp [encVal, decVal, decNat_encNat]
  | str s => simp [encVal, decVal, decStr_encStr]
  | obj => simp [encVal, decVal]

theorem decToken_encToken (secret : String) (iat exp : Nat) (p : Payload) :
    decToken (encToken secret iat exp p) = some (secret, iat, exp, p) := by
  have h := decVal_encVal p.role []
  rw [List.append_nil] at h
  simp [decToken, encToken, decStr_encStr, decNat_encNat, decVal_encVal, h]

theorem space_not_mem_encStr (l : List Char) : space ∉ encStr l := by
  induction l with
  | nil => simp [encStr]; decide
  | cons c cs ih =>
    by_cases hc : c = space
    · simp only [encStr, if_pos hc, List.mem_append, List.mem_cons, List.mem_singleton,
        List.not_mem_nil, or_false, not_or]
      exact ⟨⟨by decide, by decide⟩, ih⟩
    · simp only [encStr, if_neg hc, List.mem_append, List.mem_cons, List.mem_singleton,
        List.not_mem_nil, or_false, not_or]
      exact ⟨⟨by decide, fun h => hc h.symm⟩, ih⟩

theorem space_not_mem_encNat (n : Nat) : space ∉ encNat n := by
  simp only [encNat, List.mem_append, List.mem_replicate, List.mem_singleton, not_or, not_and]
  exact ⟨fun _ => by decide, by decide⟩

theorem space_not_mem_encVal (v : JsVal) : space ∉ encVal v := by
  cases v with
  | undefined => simp [encVal]; decide
  | null => simp [encVal]; decide
  | bool b => cases b <;> simp [encVal] <;> decide
  | num n =>
    cases n with
    | ofNat k =>
      simp only [encVal, List.mem_cons, not_or]
      exact ⟨by decide, space_not_mem_encNat k⟩
    | negSucc k =>
      simp only [encVal, List.mem_cons, not_or]
      exact ⟨by decide, space_not_mem_encNat k⟩
  | str s =>
    simp only [encVal, List.mem_cons, not_or]
    exact ⟨by decide, space_not_mem_encStr _⟩
  | obj => simp [encVal]; decide

theorem space_not_mem_encToken (secret : String) (iat exp : Nat) (p : Payload) :
    space ∉ encToken secret iat exp p := by
  simp only [encToken, List.mem_append, not_or]
  exact ⟨space_not_mem_encStr _, space_not_mem_encNat _, space_not_mem_encNat _,
    space_not_mem_encVal _, space_not_mem_encVal _, space_not_mem_encVal _⟩

theorem encStr_ne_nil (l : List Char) : encStr l ≠ [] := by
  cases l with
  | nil => simp [encStr]
  | cons c cs => by_cases hc : c = space <;> simp [encStr, hc]

theorem encToken_ne_nil (secret : String) (iat exp : Nat) (p : Payload) :
    encToken secret iat exp p ≠ [] := by
  simp [encToken, encStr_ne_nil]

theorem refSign_eq_ok (p : Payload) (s e : Option String) (now : Nat) (tok : String) :
    refSign p s e now = .ok tok ↔
      ∃ s0 e0 d, s = some s0 ∧ s0 ≠ "" ∧ e = some e0 ∧ refTimespan e0 = some d ∧
        tok = String.mk (encToken s0 now (now + d) p) := by
  cases s with
  | none => simp [refSign]
  | some s0 =>
    by_cases hs : s0 = ""
    · simp [refSign, hs]
    · cases e with
      | none => simp [refSign, hs]
      | some e0 =>
        cases hd : refTimespan e0 with
        | none => simp [refSign, hs, hd]
        | some d =>
          have hrun : refSign p (some s0) (some e0) now
              = .ok (String.mk (encToken s0 now (now + d) p)) := by
            simp [refSign, hs, hd]
          rw [hrun]
          constructor
          · intro h
            exact ⟨s0, e0, d, rfl, hs, rfl, hd, (Except.ok.inj h).symm⟩
          · rintro ⟨s1, e1, d1, h1, -, h2, h3, h4⟩
            cases h1
            cases h2
            rw [hd] at h3
            cases h3
            rw [h4]

theorem refVerify_encToken (s : String) (iat exp : Nat) (p : Payload) (k : String)
    (now : Nat) :
    refVerify (String.mk (encToken s iat exp p)) (some k) now =
      if k ≠ s then .error ⟨"JsonWebTokenError", "invalid signature"⟩
      else if exp ≤ now then .error ⟨"TokenExpiredError", "jwt expired"⟩
      else .ok ⟨p.userId, p.email, p.role, some iat, some exp⟩ := by
  simp only [refVerify, decToken_encToken]

theorem refVerify_window (tok : String) (k : Option String) (now now' : Nat) (d : Decoded)
    (h : refVerify tok k now = .ok d) (hx : ∀ x, d.exp = some x → now' < x) :
    refVerify tok k now' = .ok d := by
  unfold refVerify at h ⊢
  cases hdec : decToken tok.data with
  | none => simp [hdec] at h
  | some r =>
    obtain ⟨s, iat, exp, p⟩ := r
    cases k with
    | none => simp [hdec] at h
    | some k =>
      by_cases hk : k = s
      · by_cases he : exp ≤ now
        · simp [hdec, hk, he] at h
        · simp only [hdec, hk, ne_eq, not_true_eq_false, if_false, he, Except.ok.injEq] at h
          have hlt : now' < exp := hx exp (by rw [← h])
          simp only [hk, ne_eq, not_true_eq_false, if_false, Nat.not_le.mpr hlt, h]
      · simp [hdec, hk] at h

theorem refJwt_contract : JwtContract refJwt where
  sign_ok_iff := by
    intro p s e now
    constructor
    · rintro ⟨tok, h⟩
      obtain ⟨s0, e0, d, h1, h2, h3, h4, -⟩ := (refSign_eq_ok p s e now tok).mp h
      exact ⟨s0, e0, d, h1, h2, h3, h4⟩
    · rintro ⟨s0, e0, d, h1, h2, h3, h4⟩
      exact ⟨_, (refSign_eq_ok p s e now _).mpr ⟨s0, e0, d, h1, h2, h3, h4, rfl⟩⟩
  token_shape := by
    intro p s e now tok h
    obtain ⟨s0, e0, d, -, -, -, -, h5⟩ := (refSign_eq_ok p s e now tok).mp h
    subst h5
    constructor
    · intro hk
      exact encToken_ne_nil s0 now (now + d) p (congrArg String.data hk)
    · exact space_not_mem_encToken s0 now (now + d) p
  verify_fresh := by
    intro p s e d now now' tok h hd hlt
    obtain ⟨s0, e0, d0, h1, -, h3, h4, h5⟩ := (refSign_eq_ok p (some s) (some e) now tok).mp h
    cases h1
    cases h3
    have hdd : d0 = d := Option.some.inj (h4.symm.trans hd)
    subst hdd h5
    dsimp only [refJwt]
    rw [refVerify_encToken, if_neg (by simp), if_neg (by omega)]
  verify_expired := by
    intro p s e d now now' tok h hd hle
    obtain ⟨s0, e0, d0, h1, -, h3, h4, h5⟩ := (refSign_eq_ok p (some s) (some e) now tok).mp h
    cases h1
    cases h3
    have hdd : d0 = d := Option.some.inj (h4.symm.trans hd)
    subst hdd h5
    refine ⟨"jwt expired", ?_⟩
    dsimp only [refJwt]
    rw [refVerify_encToken, if_neg (by simp), if_pos hle]
  verify_window := by
    intro tok k now now' d h _ hx
    exact refVerify_window tok k now now' d h hx

/-! ## Reading the Authorization header -/

theorem splitChars_ne_nil (sep : Char) (l : List Char) : splitChars sep l ≠ [] := by
  induction l with
  | nil => simp [splitChars]
  | cons c cs ih =>
    by_cases hc : c = sep
    · simp [splitChars, hc]
    · cases hsp : splitChars sep cs with
      | nil => exact absurd hsp ih
      | cons seg segs => simp [splitChars, hc, hsp]

theorem splitChars_of_not_mem (sep : Char) (l : List Char) (h : sep ∉ l) :
    splitChars sep l = [l] := by
  induction l with
  | nil => simp [splitChars]
  | cons c cs ih =>
    have hc : c ≠ sep := fun e => h (by simp [e])
    have hcs : sep ∉ cs := fun e => h (List.mem_cons_of_mem _ e)
    simp [splitChars, hc, ih hcs]

theorem splitChars_append_sep (sep : Char) (w rest : List Char) (h : sep ∉ w) :
    splitChars sep (w ++ sep :: rest) = w :: splitChars sep rest := by
  induction w with
  | nil => simp [splitChars]
  | cons c cs ih =>
    have hc : c ≠ sep := fun e => h (by simp [e])
    have hcs : sep ∉ cs := fun e => h (List.mem_cons_of_mem _ e)
    simp [splitChars, hc, ih hcs]

/-- The second segment of `w ++ " " ++ t ++ tail` is `t`, whatever the scheme word `w`
is, when `tail` is empty or starts a further segment. -/
theorem extractToken_second_segment (w t tail : List Char) (hw : space ∉ w)
    (ht : space ∉ t) (htail : tail = [] ∨ ∃ r, tail = space :: r) :
    extractToken (some (String.mk (w ++ space :: (t ++ tail)))) = some (String.mk t) := by
  have hne : String.mk (w ++ space :: (t ++ tail)) ≠ "" := by
    intro hk
    have := congrArg String.data hk
    simp at this
  have hseg : ∃ segs, splitChars space (t ++ tail) = t :: segs := by
    rcases htail with h | ⟨r, h⟩
    · subst h
      exact ⟨[], by rw [List.append_nil]; exact splitChars_of_not_mem space t ht⟩
    · subst h
      exact ⟨_, splitChars_append_sep space t r ht⟩
  obtain ⟨segs, hsegs⟩ := hseg
  simp only [extractToken, if_neg hne, splitChars_append_sep space w _ hw, hsegs]
  rfl

/-- The header `Bearer <token>` yields `<token>` for a token without spaces. -/
theorem extractToken_bearer (tok : String) (h : space ∉ tok.data) :
    extractToken (some ("Bearer " ++ tok)) = some tok := by
  have h1 : "Bearer " ++ tok = String.mk ("Bearer".data ++ space :: (tok.data ++ [])) := by
    apply String.ext
    simp only [String.data_append, List.append_nil]
    rfl
  rw [h1, extractToken_second_segment "Bearer".data tok.data [] (by decide) h (Or.inl rfl)]

/-! ## Login -/

/-- C1: for a login request whose email and password are both truthy, the answer when
no user record has that email and the answer when the record found is refused by
`bcrypt.compare` are the same response, 401 with error `Invalid credentials` and message
`Email or password is incorrect`, and in both cases the refresh-token set is returned
unchanged. -/
theorem login_invalid_credentials_uniform (lib : Jwt)
    (compare : JsVal → JsVal → Except JsError Bool) (env : Env) (users : List User)
    (refreshTokens : Finset String) (body : LoginBody) (now : Nat)
    (hemail : body.email.truthy = true) (hpassword : body.password.truthy = true) :
    ((∀ u ∈ users, u.email.strictEq body.email = false) →
      login lib compare env users refreshTokens body now =
        (refreshTokens,
          ⟨401, .error "Invalid credentials" "Email or password is incorrect"⟩)) ∧
    (∀ user, users.find? (fun u => u.email.strictEq body.email) = some user →
      compare body.password user.passwordHash = .ok false →
      login lib compare env users refreshTokens body now =
        (refreshTokens,
          ⟨401, .error "Invalid credentials" "Email or password is incorrect"⟩)) := by
  constructor
  · intro hnone
    have hfind : users.find? (fun u => u.email.strictEq body.email) = none := by
      rw [List.find?_eq_none]
      intro u hu
      simp [hnone u hu]
    simp [login, hemail, hpassword, hfind, invalidCredentials]
  · intro user hfind hcmp
    simp [login, hemail, hpassword, hfind, hcmp, invalidCredentials]

/-- Witness of C1: an unknown email and a wrong password for a known email. -/
theorem login_invalid_credentials_uniform_witness :
    login refJwt refCompare sampleEnv sampleUsers ∅ ⟨.str "x@y.z", .str "pw"⟩ 3 =
        (∅, ⟨401, .error "Invalid credentials" "Email or password is incorrect"⟩) ∧
    login refJwt refCompare sampleEnv sampleUsers ∅ ⟨.str "a@b.c", .str "bad"⟩ 3 =
        (∅, ⟨401, .error "Invalid credentials" "Email or password is incorrect"⟩) :=
  ⟨(login_invalid_credentials_uniform refJwt refCompare sampleEnv sampleUsers ∅
      ⟨.str "x@y.z", .str "pw"⟩ 3 (by decide) (by decide)).1 (by decide),
   (login_invalid_credentials_uniform refJwt refCompare sampleEnv sampleUsers ∅
      ⟨.str "a@b.c", .str "bad"⟩ 3 (by decide) (by decide)).2
      ⟨.num 1, .str "a@b.c", .str "$2a$pw", .str "Ann", .str "user"⟩ (by decide) (by decide)⟩

/-! ## Logout -/

theorem setHas_setDelete (refreshTokens : Finset String) (t : JsVal) :
    setHas (setDelete refreshTokens t) t = false := by
  cases t <;> simp [setHas, setDelete]

/-- C4: for every set and every truthy token value, a logout with it followed by a
refresh with it is answered 403, error `Invalid refresh token`, message
`Refresh token not found or has been revoked`, whatever the set held and whatever the
token library would say about the token. -/
theorem logout_then_refresh_rejected (lib : Jwt) (env : Env)
    (refreshTokens : Finset String) (t : JsVal) (now : Nat) (ht : t.truthy = true) :
    refresh lib env (logout refreshTokens ⟨t⟩).1 ⟨t⟩ now =
      ((logout refreshTokens ⟨t⟩).1,
        ⟨403, .error "Invalid refresh token"
          "Refresh token not found or has been revoked"⟩) := by
  simp [refresh, logout, ht, setHas_setDelete]

/-- C6: logout always answers 200 with `Logout successful`; doing it twice leaves the
same set as doing it once; a missing (falsy) token or a token that is not in the set
leaves the set as it was; a token that is in the set is removed and every other member
is kept. -/
theorem logout_always_ok_idempotent (refreshTokens : Finset String) (body : TokenBody) :
    (logout refreshTokens body).2 = ⟨200, .message "Logout successful"⟩ ∧
    (logout (logout refreshTokens body).1 body).1 = (logout refreshTokens body).1 ∧
    (body.refreshToken.truthy = false → (logout refreshTokens body).1 = refreshTokens) ∧
    (setHas refreshTokens body.refreshToken = false →
      (logout refreshTokens body).1 = refreshTokens) ∧
    (∀ t, body.refreshToken = .str t → t ≠ "" → t ∈ refreshTokens →
      t ∉ (logout refreshTokens body).1 ∧
      ∀ x, x ≠ t → (x ∈ (logout refreshTokens body).1 ↔ x ∈ refreshTokens)) := by
  obtain ⟨t⟩ := body
  refine ⟨rfl, ?_, ?_, ?_, ?_⟩
  · by_cases h : t.truthy = true
    · cases t <;> simp [logout, setDelete, h]
    · simp [logout, h]
  · intro h
    simp [logout, h]
  · intro h
    cases t <;> simp_all [logout, setDelete, setHas]
  · intro t0 h0 hne hmem
    simp only at h0
    subst h0
    have htruthy : (JsVal.str t0).truthy = true := by simp [JsVal.truthy, hne]
    simp only [logout, htruthy, if_true, setDelete]
    refine ⟨by simp, ?_⟩
    intro x hx
    simp [hx]

/-- Witness of C4: the token issued by a login is revoked, then presented again while
it is still validly signed and unexpired. -/
theorem logout_then_refresh_rejected_witness :
    refresh refJwt sampleEnv (logout {sampleRefreshToken} ⟨.str sampleRefreshToken⟩).1
        ⟨.str sampleRefreshToken⟩ 4 =
      ((logout {sampleRefreshToken} ⟨.str sampleRefreshToken⟩).1,
        ⟨403, .error "Invalid refresh token"
          "Refresh token not found or has been revoked"⟩) :=
  logout_then_refresh_rejected refJwt sampleEnv {sampleRefreshToken}
    (.str sampleRefreshToken) 4 (by decide)

/-! ## Refresh -/

theorem catchRefresh_status_ne (e : JsError) : (catchRefresh e).status ≠ 200 := by
  unfold catchRefresh
  split_ifs <;> simp

/-- Counterexample to C9: the refresh token of the sample login expires at time 8; a
refresh with it at time 9 is answered 401 `Refresh token expired`, and the token is still
in the set afterwards. -/
theorem refresh_expired_not_deleted_counterexample :
    refVerify sampleRefreshToken sampleEnv.JWT_REFRESH_SECRET 9 =
        .error ⟨"TokenExpiredError", "jwt expired"⟩ ∧
    (refresh refJwt sampleEnv {sampleRefreshToken} ⟨.str sampleRefreshToken⟩ 9).2 =
        ⟨401, .error "Refresh token expired" "Please login again"⟩ ∧
    sampleRefreshToken ∈
      (refresh refJwt sampleEnv {sampleRefreshToken} ⟨.str sampleRefreshToken⟩ 9).1 := by
  decide

/-- C9, amended: a refresh with a token of the set whose verification raises
`TokenExpiredError` is answered 401 `Refresh token expired` and returns the set as it
was, so the expired token is still a member afterwards. -/
theorem refresh_expired_keeps_entry (lib : Jwt) (env : Env)
    (refreshTokens : Finset String) (t : String) (now : Nat) (e : JsError)
    (hne : t ≠ "") (hmem : t ∈ refreshTokens)
    (hver : lib.verify t env.JWT_REFRESH_SECRET now = .error e)
    (hname : e.name = "TokenExpiredError") :
    refresh lib env refreshTokens ⟨.str t⟩ now =
      (refreshTokens, ⟨401, .error "Refresh token expired" "Please login again"⟩) ∧
    t ∈ (refresh lib env refreshTokens ⟨.str t⟩ now).1 := by
  have hrun : refresh lib env refreshTokens ⟨.str t⟩ now =
      (refreshTokens, ⟨401, .error "Refresh token expired" "Please login again"⟩) := by
    simp [refresh, JsVal.truthy, hne, setHas, hmem, jwtVerify, hver, catchRefresh, hname]
  exact ⟨hrun, by rw [hrun]; exact hmem⟩

/-- Witness of C9, amended: the expired sample refresh token at time 9. -/
theorem refresh_expired_keeps_entry_witness :
    refresh refJwt sampleEnv {sampleRefreshToken} ⟨.str sampleRefreshToken⟩ 9 =
      ({sampleRefreshToken},
        ⟨401, .error "Refresh token expired" "Please login again"⟩) ∧
    sampleRefreshToken ∈
      (refresh refJwt sampleEnv {sampleRefreshToken} ⟨.str sampleRefreshToken⟩ 9).1 :=
  refresh_expired_keeps_entry refJwt sampleEnv {sampleRefreshToken} sampleRefreshToken 9
    ⟨"TokenExpiredError", "jwt expired"⟩ (by decide) (by decide) (by decide) (by decide)

/-! ## The request guard -/

theorem authenticateToken_of_token (lib : Jwt) (env : Env) (h : Option String) (now : Nat)
    (tok : String) (hex : extractToken h = some tok) (hne : tok ≠ "") :
    authenticateToken lib env h now =
      match lib.verify tok env.JWT_ACCESS_SECRET now with
      | .ok decoded => ⟨some decoded, true, none⟩
      | .error e => reject (catchGuard e) := by
  simp only [authenticateToken, hex, if_neg hne]

theorem authenticateToken_no_token (lib : Jwt) (env : Env) (h : Option String) (now : Nat)
    (hex : extractToken h = none ∨ extractToken h = some "") :
    authenticateToken lib env h now = reject tokenRequired := by
  rcases hex with hex | hex <;> simp [authenticateToken, hex]

/-- The guard answers `Token expired` to a token it issued once the TTL has elapsed. -/
theorem authenticateToken_after_ttl (lib : Jwt) (hc : JwtContract lib) (env : Env)
    (p : Payload) (s e : String) (d n now : Nat) (tok : String)
    (hs : env.JWT_ACCESS_SECRET = some s)
    (hsig : lib.sign p (some s) (some e) n = .ok tok) (hd : lib.timespan e = some d)
    (hle : n + d ≤ now) :
    authenticateToken lib env (some ("Bearer " ++ tok)) now =
      ⟨none, false, some ⟨401, .error "Token expired"
        "Access token has expired. Please refresh your token."⟩⟩ := by
  obtain ⟨hne, hsp⟩ := hc.token_shape p _ _ n tok hsig
  obtain ⟨m, hm⟩ := hc.verify_expired p s e d n now tok hsig hd hle
  rw [authenticateToken_of_token lib env _ now tok (extractToken_bearer tok hsp) hne,
    hs, hm]
  simp [reject, catchGuard]

/-- The guard accepts a token it issued, with its claims, until the TTL has elapsed. -/
theorem authenticateToken_before_ttl (lib : Jwt) (hc : JwtContract lib) (env : Env)
    (p : Payload) (s e : String) (d n now : Nat) (tok : String)
    (hs : env.JWT_ACCESS_SECRET = some s)
    (hsig : lib.sign p (some s) (some e) n = .ok tok) (hd : lib.timespan e = some d)
    (hlt : now < n + d) :
    authenticateToken lib env (some ("Bearer " ++ tok)) now =
      ⟨some ⟨p.userId, p.email, p.role, some n, some (n + d)⟩, true, none⟩ := by
  obtain ⟨hne, hsp⟩ := hc.token_shape p _ _ n tok hsig
  have hv := hc.verify_fresh p s e d n now tok hsig hd hlt
  rw [authenticateToken_of_token lib env _ now tok (extractToken_bearer tok hsp) hne,
    hs, hv]

/-- C7: the guard calls `next`, with `req.user` set to the decoded claims, exactly when
a non-empty token is read from the header and verifies under the access secret.
Otherwise it sends a response, leaves `req.user` unset and does not call `next`: 401
`Access token required` without a token, 401 `Token expired` on `TokenExpiredError`,
403 `Invalid token` on `JsonWebTokenError`.  For a library that meets the contract, an
access token presented once its TTL has elapsed gets the `Token expired` answer. -/
theorem authenticateToken_accepts_iff_verified (lib : Jwt) (env : Env)
    (authHeader : Option String) (now : Nat) :
    ((authenticateToken lib env authHeader now).nextCalled = true ↔
      ∃ tok d, extractToken authHeader = some tok ∧ tok ≠ "" ∧
        lib.verify tok env.JWT_ACCESS_SECRET now = .ok d) ∧
    (∀ tok d, extractToken authHeader = some tok → tok ≠ "" →
      lib.verify tok env.JWT_ACCESS_SECRET now = .ok d →
      authenticateToken lib env authHeader now = ⟨some d, true, none⟩) ∧
    ((authenticateToken lib env authHeader now).nextCalled = false →
      (authenticateToken lib env authHeader now).user = none ∧
      ∃ r, (authenticateToken lib env authHeader now).response = some r) ∧
    ((extractToken authHeader = none ∨ extractToken authHeader = some "") →
      authenticateToken lib env authHeader now =
        ⟨none, false, some ⟨401, .error "Access token required"
          "No token provided in Authorization header"⟩⟩) ∧
    (∀ tok e, extractToken authHeader = some tok → tok ≠ "" →
      lib.verify tok env.JWT_ACCESS_SECRET now = .error e →
      (e.name = "TokenExpiredError" →
        authenticateToken lib env authHeader now =
          ⟨none, false, some ⟨401, .error "Token expired"
            "Access token has expired. Please refresh your token."⟩⟩) ∧
      (e.name = "JsonWebTokenError" →
        authenticateToken lib env authHeader now =
          ⟨none, false, some ⟨403, .error "Invalid token"
            "The provided token is invalid or malformed."⟩⟩)) ∧
    (JwtContract lib → ∀ (p : Payload) (s e : String) (d n : Nat) (tok : String),
      env.JWT_ACCESS_SECRET = some s → lib.sign p (some s) (some e) n = .ok tok →
      lib.timespan e = some d → n + d ≤ now →
      authenticateToken lib env (some ("Bearer " ++ tok)) now =
        ⟨none, false, some ⟨401, .error "Token expired"
          "Access token has expired. Please refresh your token."⟩⟩) := by
  refine ⟨?_, ?_, ?_, ?_, ?_, ?_⟩
  · constructor
    · intro hnext
      cases hex : extractToken authHeader with
      | none =>
        rw [authenticateToken_no_token lib env authHeader now (Or.inl hex)] at hnext
        simp [reject] at hnext
      | some tok =>
        by_cases hne : tok = ""
        · rw [authenticateToken_no_token lib env authHeader now
            (Or.inr (by rw [hex, hne]))] at hnext
          simp [reject] at hnext
        · rw [authenticateToken_of_token lib env authHeader now tok hex hne] at hnext
          cases hver : lib.verify tok env.JWT_ACCESS_SECRET now with
          | ok d => exact ⟨tok, d, rfl, hne, hver⟩
          | error e =>
            rw [hver] at hnext
            simp [reject] at hnext
    · rintro ⟨tok, d, hex, hne, hver⟩
      rw [authenticateToken_of_token lib env authHeader now tok hex hne, hver]
  · intro tok d hex hne hver
    rw [authenticateToken_of_token lib env authHeader now tok hex hne, hver]
  · intro hnext
    cases hex : extractToken authHeader with
    | none =>
      rw [authenticateToken_no_token lib env authHeader now (Or.inl hex)]
      exact ⟨rfl, _, rfl⟩
    | some tok =>
      by_cases hne : tok = ""
      · rw [authenticateToken_no_token lib env authHeader now (Or.inr (by rw [hex, hne]))]
        exact ⟨rfl, _, rfl⟩
      · rw [authenticateToken_of_token lib env authHeader now tok hex hne] at hnext ⊢
        cases hver : lib.verify tok env.JWT_ACCESS_SECRET now with
        | ok d =>
          rw [hver] at hnext
          simp at hnext
        | error e => exact ⟨rfl, _, rfl⟩
  · intro hex
    rw [authenticateToken_no_token lib env authHeader now hex]
    rfl
  · intro tok e hex hne hver
    rw [authenticateToken_of_token lib env authHeader now tok hex hne, hver]
    constructor
    · intro hname
      simp [reject, catchGuard, hname]
    · intro hname
      simp [reject, catchGuard, hname]
  · intro hc p s e d n tok hs hsig hd hle
    exact authenticateToken_after_ttl lib hc env p s e d n now tok hs hsig hd hle

/-- Witness of C7: the sample access token, which expires at time 5, is presented at
time 7 and gets the `Token expired` answer. -/
theorem authenticateToken_accepts_iff_verified_witness :
    authenticateToken refJwt sampleEnv (some ("Bearer " ++ sampleAccessToken)) 7 =
      ⟨none, false, some ⟨401, .error "Token expired"
        "Access token has expired. Please refresh your token."⟩⟩ :=
  (authenticateToken_accepts_iff_verified refJwt sampleEnv none 7).2.2.2.2.2
    refJwt_contract ⟨.num 1, .str "a@b.c", .str "user"⟩ "acc" "2s" 2 3 sampleAccessToken
    rfl (by decide) (by decide) (by decide)

/-- C10: the guard does not look at the scheme word.  The token handed to `jwt.verify`
is the second space-separated segment of the header whatever the first segment is, so
two headers that differ only in their first segment get the same outcome; a header that
is absent, has no space, or has an empty second segment is answered 401
`Access token required`. -/
theorem authenticateToken_ignores_scheme (lib : Jwt) (env : Env) (now : Nat) :
    (∀ w t tail : List Char, space ∉ w → space ∉ t →
      (tail = [] ∨ ∃ r, tail = space :: r) →
      extractToken (some (String.mk (w ++ space :: (t ++ tail)))) = some (String.mk t)) ∧
    (∀ w t tail : List Char, space ∉ w → space ∉ t → t ≠ [] →
      (tail = [] ∨ ∃ r, tail = space :: r) →
      authenticateToken lib env (some (String.mk (w ++ space :: (t ++ tail)))) now =
        match lib.verify (String.mk t) env.JWT_ACCESS_SECRET now with
        | .ok decoded => ⟨some decoded, true, none⟩
        | .error e => reject (catchGuard e)) ∧
    (∀ w1 w2 rest : List Char, space ∉ w1 → space ∉ w2 →
      authenticateToken lib env (some (String.mk (w1 ++ space :: rest))) now =
        authenticateToken lib env (some (String.mk (w2 ++ space :: rest))) now) ∧
    authenticateToken lib env none now =
      ⟨none, false, some ⟨401, .error "Access token required"
        "No token provided in Authorization header"⟩⟩ ∧
    (∀ h : String, space ∉ h.data →
      authenticateToken lib env (some h) now =
        ⟨none, false, some ⟨401, .error "Access token required"
          "No token provided in Authorization header"⟩⟩) ∧
    (∀ w rest : List Char, space ∉ w →
      authenticateToken lib env (some (String.mk (w ++ space :: space :: rest))) now =
        ⟨none, false, some ⟨401, .error "Access token required"
          "No token provided in Authorization header"⟩⟩) := by
  refine ⟨?_, ?_, ?_, ?_, ?_, ?_⟩
  · intro w t tail hw ht htail
    exact extractToken_second_segment w t tail hw ht htail
  · intro w t tail hw ht hne htail
    have hne2 : String.mk t ≠ "" := fun hk => hne (congrArg String.data hk)
    exact authenticateToken_of_token lib env _ now (String.mk t)
      (extractToken_second_segment w t tail hw ht htail) hne2
  · intro w1 w2 rest hw1 hw2
    have hne : ∀ w : List Char, String.mk (w ++ space :: rest) ≠ "" := by
      intro w hk
      have := congrArg String.data hk
      simp at this
    simp only [authenticateToken, extractToken, if_neg (hne w1), if_neg (hne w2),
      splitChars_append_sep space _ rest hw1, splitChars_append_sep space _ rest hw2]
    rfl
  · rfl
  · intro h hsp
    apply authenticateToken_no_token
    by_cases hh : h = ""
    · right
      simp [extractToken, hh]
    · left
      simp [extractToken, hh, splitChars_of_not_mem space h.data hsp]
  · intro w rest hw
    apply authenticateToken_no_token
    right
    have hne : String.mk (w ++ space :: space :: rest) ≠ "" := by
      intro hk
      have := congrArg String.data hk
      simp at this
    simp only [extractToken, if_neg hne, splitChars_append_sep space w _ hw]
    simp [splitChars]

/-- Witness of C10: `Basic <t>` and `Bearer <t>` carry the same token. -/
theorem authenticateToken_ignores_scheme_witness :
    extractToken (some "Basic abc") = some "abc" ∧
    extractToken (some "Bearer abc") = some "abc" ∧
    authenticateToken refJwt sampleEnv (some "Basic abc") 4 =
      authenticateToken refJwt sampleEnv (some "Bearer abc") 4 :=
  ⟨(authenticateToken_ignores_scheme refJwt sampleEnv 4).1
      "Basic".data "abc".data [] (by decide) (by decide) (Or.inl rfl),
   (authenticateToken_ignores_scheme refJwt sampleEnv 4).1
      "Bearer".data "abc".data [] (by decide) (by decide) (Or.inl rfl),
   (authenticateToken_ignores_scheme refJwt sampleEnv 4).2.2.1
      "Basic".data "Bearer".data "abc".data (by decide) (by decide)⟩

/-! ## Frame properties of the handlers -/

theorem refresh_fst (lib : Jwt) (env : Env) (refreshTokens : Finset String)
    (body : TokenBody) (now : Nat) :
    (refresh lib env refreshTokens body now).1 = refreshTokens := by
  unfold refresh
  split_ifs
  · rfl
  · rfl
  · cases jwtVerify lib body.refreshToken env.JWT_REFRESH_SECRET now with
    | error e => rfl
    | ok d =>
      cases hs : lib.sign ⟨d.userId, d.email, d.role⟩ env.JWT_ACCESS_SECRET
          env.ACCESS_TOKEN_EXPIRY now with
      | error e => simp [hs]
      | ok tok => simp [hs]

theorem refresh_ok_inv (lib : Jwt) (env : Env) (refreshTokens : Finset String)
    (t : JsVal) (now : Nat)
    (h : (refresh lib env refreshTokens ⟨t⟩ now).2.status = 200) :
    t.truthy = true ∧ setHas refreshTokens t = true ∧
    ∃ d tok, jwtVerify lib t env.JWT_REFRESH_SECRET now = .ok d ∧
      lib.sign ⟨d.userId, d.email, d.role⟩ env.JWT_ACCESS_SECRET
        env.ACCESS_TOKEN_EXPIRY now = .ok tok ∧
      refresh lib env refreshTokens ⟨t⟩ now =
        (refreshTokens, ⟨200, .refreshed "Token refreshed successfully" tok⟩) := by
  cases ht : t.truthy with
  | false => simp [refresh, ht] at h
  | true =>
    cases hmem : setHas refreshTokens t with
    | false => simp [refresh, ht, hmem] at h
    | true =>
      refine ⟨rfl, rfl, ?_⟩
      cases hver : jwtVerify lib t env.JWT_REFRESH_SECRET now with
      | error e =>
        have h2 : (catchRefresh e).status = 200 := by
          simpa [refresh, ht, hmem, hver] using h
        exact absurd h2 (catchRefresh_status_ne e)
      | ok d =>
        cases hs : lib.sign ⟨d.userId, d.email, d.role⟩ env.JWT_ACCESS_SECRET
            env.ACCESS_TOKEN_EXPIRY now with
        | error e =>
          have h2 : (catchRefresh e).status = 200 := by
            simpa [refresh, ht, hmem, hver, hs] using h
          exact absurd h2 (catchRefresh_status_ne e)
        | ok tok =>
          exact ⟨d, tok, rfl, hs, by simp [refresh, ht, hmem, hver, hs]⟩

theorem login_fst (lib : Jwt) (compare : JsVal → JsVal → Except JsError Bool) (env : Env)
    (users : List User) (refreshTokens : Finset String) (body : LoginBody) (now : Nat) :
    (login lib compare env users refreshTokens body now).1 = refreshTokens ∨
    ∃ p rt, lib.sign p env.JWT_REFRESH_SECRET env.REFRESH_TOKEN_EXPIRY now = .ok rt ∧
      (login lib compare env users refreshTokens body now).1 = insert rt refreshTokens := by
  by_cases hin : (!body.email.truthy || !body.password.truthy) = true
  · left
    simp only [login, hin, if_true]
  · cases hfind : users.find? (fun u => u.email.strictEq body.email) with
    | none =>
      left
      simp only [login, hin, hfind]
      rfl
    | some user =>
      cases hcmp : compare body.password user.passwordHash with
      | error e =>
        left
        simp only [login, hin, hfind, hcmp]
        rfl
      | ok b =>
        cases b with
        | false =>
          left
          simp only [login, hin, hfind, hcmp]
          rfl
        | true =>
          cases ha : lib.sign ⟨user.id, user.email, user.role⟩ env.JWT_ACCESS_SECRET
              env.ACCESS_TOKEN_EXPIRY now with
          | error e =>
            left
            simp only [login, hin, hfind, hcmp, ha]
            rfl
          | ok acc =>
            cases hr : lib.sign ⟨user.id, user.email, user.role⟩ env.JWT_REFRESH_SECRET
                env.REFRESH_TOKEN_EXPIRY now with
            | error e =>
              left
              simp only [login, hin, hfind, hcmp, ha, hr]
              rfl
            | ok rt =>
              right
              refine ⟨⟨user.id, user.email, user.role⟩, rt, hr, ?_⟩
              simp only [login, hin, hfind, hcmp, ha, hr]
              rfl

theorem logout_fst_subset (refreshTokens : Finset String) (body : TokenBody) :
    (logout refreshTokens body).1 ⊆ refreshTokens := by
  obtain ⟨t⟩ := body
  by_cases h : t.truthy = true
  · cases t <;> simp [logout, setDelete, h, Finset.erase_subset]
  · simp [logout, h]

/-- Every member of a reachable set was signed by the login handler under the refresh
secret. -/
theorem reachable_signed (lib : Jwt) (compare : JsVal → JsVal → Except JsError Bool)
    (env : Env) (users : List User) (s : Finset String)
    (hr : Reachable lib compare env users s) :
    ∀ t ∈ s, ∃ p now0,
      lib.sign p env.JWT_REFRESH_SECRET env.REFRESH_TOKEN_EXPIRY now0 = .ok t := by
  induction hr with
  | init => simp
  | login s body now _ ih =>
    intro t ht
    rcases login_fst lib compare env users s body now with h | ⟨p, rt, hsig, h⟩
    · rw [h] at ht
      exact ih t ht
    · rw [h, Finset.mem_insert] at ht
      rcases ht with ht | ht
      · exact ⟨p, now, by rw [ht]; exact hsig⟩
      · exact ih t ht
  | refresh s body now _ ih =>
    intro t ht
    rw [refresh_fst] at ht
    exact ih t ht
  | logout s body _ ih =>
    intro t ht
    exact ih t (logout_fst_subset s body ht)

/-- A token that the login handler signed under the refresh secret never fails
verification under that secret with `JsonWebTokenError`: it verifies, or it is reported
expired. -/
theorem signed_not_invalid (lib : Jwt) (hc : JwtContract lib) (p : Payload)
    (k f : Option String) (n now : Nat) (t : String) (e : JsError)
    (hsig : lib.sign p k f n = .ok t) (hver : lib.verify t k now = .error e) :
    e.name = "TokenExpiredError" := by
  obtain ⟨s0, f0, d, hs0, -, hf0, hd⟩ := (hc.sign_ok_iff p k f n).mp ⟨t, hsig⟩
  subst hs0 hf0
  by_cases hlt : now < n + d
  · rw [hc.verify_fresh p s0 f0 d n now t hsig hd hlt] at hver
    cases hver
  · obtain ⟨m, hm⟩ := hc.verify_expired p s0 f0 d n now t hsig hd (Nat.le_of_not_lt hlt)
    rw [hm] at hver
    cases hver
    rfl

/-! ## When a refresh is answered 200 -/

/-- Counterexample to C3: with `JWT_ACCESS_SECRET` unset, the sample refresh token is
in the set and verifies under the refresh secret at time 4, yet the refresh is answered
500 `Token refresh failed`, not 200. -/
theorem refresh_member_verified_not_ok_counterexample :
    setHas {sampleRefreshToken} (.str sampleRefreshToken) = true ∧
    jwtVerify refJwt (.str sampleRefreshToken) envWithoutAccessSecret.JWT_REFRESH_SECRET 4 =
        .ok ⟨.num 1, .str "a@b.c", .str "user", some 3, some 8⟩ ∧
    refresh refJwt envWithoutAccessSecret {sampleRefreshToken} ⟨.str sampleRefreshToken⟩ 4 =
        ({sampleRefreshToken},
          ⟨500, .error "Token refresh failed" "secretOrPrivateKey must have a value"⟩) ∧
    (refresh refJwt envWithoutAccessSecret {sampleRefreshToken}
        ⟨.str sampleRefreshToken⟩ 4).2.status ≠ 200 := by
  decide

/-- C3, amended: a refresh with a truthy token is answered 200 exactly when the token is
in the set, it verifies under the refresh secret at the current time, and signing the
new access token does not throw; the answer then carries the newly signed access token.
A token that is not in the set is answered 403
`Refresh token not found or has been revoked` even if it verifies; a token in the set
whose verification raises `TokenExpiredError` is answered 401 `Refresh token expired`. -/
theorem refresh_ok_iff_member_verified_signed (lib : Jwt) (env : Env)
    (refreshTokens : Finset String) (t : JsVal) (now : Nat) (ht : t.truthy = true) :
    ((refresh lib env refreshTokens ⟨t⟩ now).2.status = 200 ↔
      (setHas refreshTokens t = true ∧
        ∃ d, jwtVerify lib t env.JWT_REFRESH_SECRET now = .ok d ∧
          ∃ tok, lib.sign ⟨d.userId, d.email, d.role⟩
            env.JWT_ACCESS_SECRET env.ACCESS_TOKEN_EXPIRY now = .ok tok)) ∧
    (∀ d tok, setHas refreshTokens t = true →
      jwtVerify lib t env.JWT_REFRESH_SECRET now = .ok d →
      lib.sign ⟨d.userId, d.email, d.role⟩
        env.JWT_ACCESS_SECRET env.ACCESS_TOKEN_EXPIRY now = .ok tok →
      refresh lib env refreshTokens ⟨t⟩ now =
        (refreshTokens, ⟨200, .refreshed "Token refreshed successfully" tok⟩)) ∧
    (setHas refreshTokens t = false →
      refresh lib env refreshTokens ⟨t⟩ now =
        (refreshTokens, ⟨403, .error "Invalid refresh token"
          "Refresh token not found or has been revoked"⟩)) ∧
    (∀ e, setHas refreshTokens t = true →
      jwtVerify lib t env.JWT_REFRESH_SECRET now = .error e →
      e.name = "TokenExpiredError" →
      refresh lib env refreshTokens ⟨t⟩ now =
        (refreshTokens, ⟨401, .error "Refresh token expired" "Please login again"⟩)) := by
  have hok : ∀ d tok, setHas refreshTokens t = true →
      jwtVerify lib t env.JWT_REFRESH_SECRET now = .ok d →
      lib.sign ⟨d.userId, d.email, d.role⟩
        env.JWT_ACCESS_SECRET env.ACCESS_TOKEN_EXPIRY now = .ok tok →
      refresh lib env refreshTokens ⟨t⟩ now =
        (refreshTokens, ⟨200, .refreshed "Token refreshed successfully" tok⟩) := by
    intro d tok hmem hver hsig
    simp [refresh, ht, hmem, hver, hsig]
  refine ⟨?_, hok, ?_, ?_⟩
  · constructor
    · intro hst
      obtain ⟨-, hmem, d, tok, hver, hsig, -⟩ :=
        refresh_ok_inv lib env refreshTokens t now hst
      exact ⟨hmem, d, hver, tok, hsig⟩
    · rintro ⟨hmem, d, hver, tok, hsig⟩
      rw [hok d tok hmem hver hsig]
  · intro hmem
    simp [refresh, ht, hmem]
  · intro e hmem hver hname
    simp [refresh, ht, hmem, hver, catchRefresh, hname]

/-- Witness of C3, amended: the sample refresh token, in the set, at time 4 under the
sample environment. -/
theorem refresh_ok_iff_member_verified_signed_witness :
    (refresh refJwt sampleEnv {sampleRefreshToken} ⟨.str sampleRefreshToken⟩ 4).2.status
        = 200 ∧
    refresh refJwt sampleEnv ∅ ⟨.str sampleRefreshToken⟩ 4 =
      (∅, ⟨403, .error "Invalid refresh token"
        "Refresh token not found or has been revoked"⟩) :=
  ⟨(refresh_ok_iff_member_verified_signed refJwt sampleEnv {sampleRefreshToken}
      (.str sampleRefreshToken) 4 (by decide)).1.mpr
      ⟨by decide, ⟨.num 1, .str "a@b.c", .str "user", some 3, some 8⟩, by decide,
        "cacccc.iiii.iiiiii.pi.scac@cbc.cc.scucscecr.", by decide⟩,
   (refresh_ok_iff_member_verified_signed refJwt sampleEnv ∅
      (.str sampleRefreshToken) 4 (by decide)).2.2.1 (by decide)⟩

/-! ## Login issues usable tokens -/

/-- C2: with both secrets and both TTLs configured (access TTL positive), a login
request with truthy email and password, whose email finds a user record and whose
password `bcrypt.compare` accepts for that record, is answered 200 with an access token
and a refresh token; the refresh token is in the set afterwards; and the guard, given
`Bearer <accessToken>` at any time before the access token expires (the login instant
included), calls `next` with `req.user` carrying the record's id, email and role. -/
theorem login_issues_usable_tokens (lib : Jwt) (hc : JwtContract lib)
    (compare : JsVal → JsVal → Except JsError Bool) (env : Env) (users : List User)
    (refreshTokens : Finset String) (body : LoginBody) (now : Nat) (user : User)
    (sa sr ea er : String) (da dr : Nat)
    (hemail : body.email.truthy = true) (hpassword : body.password.truthy = true)
    (hfind : users.find? (fun u => u.email.strictEq body.email) = some user)
    (hcmp : compare body.password user.passwordHash = .ok true)
    (hsa : env.JWT_ACCESS_SECRET = some sa) (hsa0 : sa ≠ "")
    (hea : env.ACCESS_TOKEN_EXPIRY = some ea) (hda : lib.timespan ea = some da)
    (hda0 : 0 < da)
    (hsr : env.JWT_REFRESH_SECRET = some sr) (hsr0 : sr ≠ "")
    (her : env.REFRESH_TOKEN_EXPIRY = some er) (hdr : lib.timespan er = some dr) :
    ∃ accessToken refreshToken,
      login lib compare env users refreshTokens body now =
        (insert refreshToken refreshTokens,
          ⟨200, .login "Login successful" accessToken refreshToken
            ⟨user.id, user.email, user.name, user.role⟩⟩) ∧
      refreshToken ∈ (login lib compare env users refreshTokens body now).1 ∧
      (∀ now', now' < now + da →
        ∃ d, authenticateToken lib env (some ("Bearer " ++ accessToken)) now' =
            ⟨some d, true, none⟩ ∧
          d.userId = user.id ∧ d.email = user.email ∧ d.role = user.role) ∧
      (authenticateToken lib env (some ("Bearer " ++ accessToken)) now).nextCalled
        = true := by
  obtain ⟨acc, hacc⟩ := (hc.sign_ok_iff ⟨user.id, user.email, user.role⟩ (some sa)
    (some ea) now).mpr ⟨sa, ea, da, rfl, hsa0, rfl, hda⟩
  obtain ⟨rt, hrt⟩ := (hc.sign_ok_iff ⟨user.id, user.email, user.role⟩ (some sr)
    (some er) now).mpr ⟨sr, er, dr, rfl, hsr0, rfl, hdr⟩
  have hrun : login lib compare env users refreshTokens body now =
      (insert rt refreshTokens,
        ⟨200, .login "Login successful" acc rt
          ⟨user.id, user.email, user.name, user.role⟩⟩) := by
    simp [login, hemail, hpassword, hfind, hcmp, hsa, hea, hsr, her, hacc, hrt]
  have hguard : ∀ now', now' < now + da →
      authenticateToken lib env (some ("Bearer " ++ acc)) now' =
        ⟨some ⟨user.id, user.email, user.role, some now, some (now + da)⟩, true, none⟩ :=
    fun now' hlt => authenticateToken_before_ttl lib hc env
      ⟨user.id, user.email, user.role⟩ sa ea da now now' acc hsa hacc hda hlt
  refine ⟨acc, rt, hrun, ?_, ?_, ?_⟩
  · rw [hrun]
    exact Finset.mem_insert_self rt refreshTokens
  · intro now' hlt
    exact ⟨_, hguard now' hlt, rfl, rfl, rfl⟩
  · rw [hguard now (by omega)]

/-- Witness of C2: the sample user logs in at time 3 under the sample environment. -/
theorem login_issues_usable_tokens_witness :
    ∃ accessToken refreshToken,
      login refJwt refCompare sampleEnv sampleUsers ∅ ⟨.str "a@b.c", .str "pw"⟩ 3 =
        (insert refreshToken ∅,
          ⟨200, .login "Login successful" accessToken refreshToken
            ⟨.num 1, .str "a@b.c", .str "Ann", .str "user"⟩⟩) ∧
      refreshToken ∈
        (login refJwt refCompare sampleEnv sampleUsers ∅ ⟨.str "a@b.c", .str "pw"⟩ 3).1 ∧
      (∀ now', now' < 3 + 2 →
        ∃ d, authenticateToken refJwt sampleEnv (some ("Bearer " ++ accessToken)) now' =
            ⟨some d, true, none⟩ ∧
          d.userId = .num 1 ∧ d.email = .str "a@b.c" ∧ d.role = .str "user") ∧
      (authenticateToken refJwt sampleEnv (some ("Bearer " ++ accessToken)) 3).nextCalled
        = true :=
  login_issues_usable_tokens refJwt refJwt_contract refCompare sampleEnv sampleUsers ∅
    ⟨.str "a@b.c", .str "pw"⟩ 3 ⟨.num 1, .str "a@b.c", .str "$2a$pw", .str "Ann", .str "user"⟩
    "acc" "ref" "2s" "5s" 2 5 (by decide) (by decide) (by decide) (by decide)
    rfl (by decide) rfl (by decide) (by decide) rfl (by decide) rfl (by decide)

/-! ## Refresh does not rotate -/

/-- C5: the refresh handler returns the refresh-token set exactly as it received it, on
every path.  For a library that meets the contract: if a refresh with `t` is answered
200, a later refresh with `t` made before the `exp` claim of `t` is answered 200 as
well; and the access token carried by a 200 answer is accepted by the guard, with the
claims of `t`, at any time before its own expiry. -/
theorem refresh_does_not_rotate (lib : Jwt) (env : Env) (refreshTokens : Finset String) :
    (∀ body now, (refresh lib env refreshTokens body now).1 = refreshTokens) ∧
    (JwtContract lib → ∀ (t : JsVal) (now1 now2 : Nat) (d : Decoded),
      (refresh lib env refreshTokens ⟨t⟩ now1).2.status = 200 →
      jwtVerify lib t env.JWT_REFRESH_SECRET now1 = .ok d →
      now1 ≤ now2 → (∀ x, d.exp = some x → now2 < x) →
      (refresh lib env (refresh lib env refreshTokens ⟨t⟩ now1).1 ⟨t⟩ now2).2.status
        = 200) ∧
    (JwtContract lib → ∀ (t : JsVal) (now : Nat) (ea : String) (da : Nat),
      (refresh lib env refreshTokens ⟨t⟩ now).2.status = 200 →
      env.ACCESS_TOKEN_EXPIRY = some ea → lib.timespan ea = some da →
      ∃ d tok, jwtVerify lib t env.JWT_REFRESH_SECRET now = .ok d ∧
        (refresh lib env refreshTokens ⟨t⟩ now).2 =
          ⟨200, .refreshed "Token refreshed successfully" tok⟩ ∧
        ∀ now', now' < now + da →
          authenticateToken lib env (some ("Bearer " ++ tok)) now' =
            ⟨some ⟨d.userId, d.email, d.role, some now, some (now + da)⟩, true, none⟩) := by
  refine ⟨fun body now => refresh_fst lib env refreshTokens body now, ?_, ?_⟩
  · intro hc t now1 now2 d hst hver hle hexp
    obtain ⟨ht, hmem, d1, tok1, hver1, hsig1, -⟩ :=
      refresh_ok_inv lib env refreshTokens t now1 hst
    rw [hver] at hver1
    cases Except.ok.inj hver1
    rw [refresh_fst]
    have hver2 : jwtVerify lib t env.JWT_REFRESH_SECRET now2 = .ok d := by
      cases t with
      | str tk =>
        simp only [jwtVerify] at hver ⊢
        exact hc.verify_window tk _ now1 now2 d hver hle hexp
      | _ => simp [jwtVerify] at hver
    obtain ⟨tok2, hsig2⟩ := (hc.sign_ok_iff ⟨d.userId, d.email, d.role⟩ _ _ now2).mpr
      ((hc.sign_ok_iff ⟨d.userId, d.email, d.role⟩ _ _ now1).mp ⟨tok1, hsig1⟩)
    simp [refresh, ht, hmem, hver2, hsig2]
  · intro hc t now ea da hst hea hda
    obtain ⟨-, -, d, tok, hver, hsig, hrun⟩ :=
      refresh_ok_inv lib env refreshTokens t now hst
    refine ⟨d, tok, hver, by rw [hrun], ?_⟩
    intro now' hlt
    obtain ⟨s0, e0, d0, hs0, -, he0, -⟩ :=
      (hc.sign_ok_iff ⟨d.userId, d.email, d.role⟩ _ _ now).mp ⟨tok, hsig⟩
    rw [hea] at he0
    cases he0
    rw [hs0, hea] at hsig
    exact authenticateToken_before_ttl lib hc env ⟨d.userId, d.email, d.role⟩ s0 ea da
      now now' tok hs0 hsig hda hlt

/-- Witness of C5: the sample refresh token, issued at time 3 and expiring at time 8,
is used at time 4 and again at time 6. -/
theorem refresh_does_not_rotate_witness :
    (refresh refJwt sampleEnv
      (refresh refJwt sampleEnv {sampleRefreshToken} ⟨.str sampleRefreshToken⟩ 4).1
      ⟨.str sampleRefreshToken⟩ 6).2.status = 200 :=
  (refresh_does_not_rotate refJwt sampleEnv {sampleRefreshToken}).2.1 refJwt_contract
    (.str sampleRefreshToken) 4 6 ⟨.num 1, .str "a@b.c", .str "user", some 3, some 8⟩
    (by decide) (by decide) (by decide) (by decide)

/-! ## A token signed under another secret -/

/-- Counterexample to C8: after the sample login the set holds the sample refresh
token.  A token signed with the secret `oc`, which is not the refresh secret, fails
verification under the refresh secret with `JsonWebTokenError`, yet the refresh handler
answers it with the message `Refresh token not found or has been revoked`, not with
`The provided refresh token is invalid`. -/
theorem refresh_foreign_token_counterexample :
    refJwt.sign ⟨.num 1, .str "a@b.c", .str "user"⟩ (some "oc") (some "5s") 3 =
        .ok foreignToken ∧
    some "oc" ≠ sampleEnv.JWT_REFRESH_SECRET ∧
    refJwt.verify foreignToken sampleEnv.JWT_REFRESH_SECRET 4 =
        .error ⟨"JsonWebTokenError", "invalid signature"⟩ ∧
    (login refJwt refCompare sampleEnv sampleUsers ∅ ⟨.str "a@b.c", .str "pw"⟩ 3).1 =
        {sampleRefreshToken} ∧
    (refresh refJwt sampleEnv {sampleRefreshToken} ⟨.str foreignToken⟩ 4).2 =
        ⟨403, .error "Invalid refresh token"
          "Refresh token not found or has been revoked"⟩ ∧
    (refresh refJwt sampleEnv {sampleRefreshToken} ⟨.str foreignToken⟩ 4).2.body ≠
        .error "Invalid refresh token" "The provided refresh token is invalid" := by
  decide

/-- The message `The provided refresh token is invalid` comes from the `catch` block
only, which is entered after the membership check has passed. -/
theorem refresh_invalid_message_member (lib : Jwt) (env : Env)
    (refreshTokens : Finset String) (v : JsVal) (now : Nat)
    (h : (refresh lib env refreshTokens ⟨v⟩ now).2.body =
      .error "Invalid refresh token" "The provided refresh token is invalid") :
    setHas refreshTokens v = true := by
  cases hv : v.truthy with
  | false => simp [refresh, hv] at h
  | true =>
    cases hmem : setHas refreshTokens v with
    | false => simp [refresh, hv, hmem] at h
    | true => rfl

/-- C8, amended: for a token library that meets the contract and every set reachable
from the empty set through login, refresh and logout, a refresh with a non-empty token
whose verification under the refresh secret raises `JsonWebTokenError` (the fate of a
token signed under another key) is answered, not thrown: 403 with error
`Invalid refresh token` and the message `Refresh token not found or has been revoked`,
the set being returned as it was, because such a token is never a member of a reachable
set.  The message `The provided refresh token is invalid` is only sent for a token that
is in the set. -/
theorem refresh_foreign_token_rejected (lib : Jwt) (hc : JwtContract lib)
    (compare : JsVal → JsVal → Except JsError Bool) (env : Env) (users : List User)
    (refreshTokens : Finset String)
    (hreach : Reachable lib compare env users refreshTokens)
    (t : String) (now : Nat) (e : JsError) (hne : t ≠ "")
    (hver : lib.verify t env.JWT_REFRESH_SECRET now = .error e)
    (hname : e.name = "JsonWebTokenError") :
    t ∉ refreshTokens ∧
    refresh lib env refreshTokens ⟨.str t⟩ now =
      (refreshTokens, ⟨403, .error "Invalid refresh token"
        "Refresh token not found or has been revoked"⟩) ∧
    (∀ (s : Finset String) (v : JsVal) (m : Nat),
      (refresh lib env s ⟨v⟩ m).2.body =
        .error "Invalid refresh token" "The provided refresh token is invalid" →
      setHas s v = true) := by
  have hnot : t ∉ refreshTokens := by
    intro hmem
    obtain ⟨q, m, hq⟩ := reachable_signed lib compare env users refreshTokens hreach t hmem
    have hexp := signed_not_invalid lib hc q _ _ m now t e hq hver
    rw [hname] at hexp
    simp at hexp
  exact ⟨hnot, by simp [refresh, JsVal.truthy, hne, setHas, hnot],
    fun s v m h => refresh_invalid_message_member lib env s v m h⟩

/-- Witness of C8, amended: the set left by the sample login and the token signed with
the secret `oc`. -/
theorem refresh_foreign_token_rejected_witness :
    foreignToken ∉
      (login refJwt refCompare sampleEnv sampleUsers ∅ ⟨.str "a@b.c", .str "pw"⟩ 3).1 ∧
    refresh refJwt sampleEnv
        (login refJwt refCompare sampleEnv sampleUsers ∅ ⟨.str "a@b.c", .str "pw"⟩ 3).1
        ⟨.str foreignToken⟩ 4 =
      ((login refJwt refCompare sampleEnv sampleUsers ∅ ⟨.str "a@b.c", .str "pw"⟩ 3).1,
        ⟨403, .error "Invalid refresh token"
          "Refresh token not found or has been revoked"⟩) :=
  ⟨(refresh_foreign_token_rejected refJwt refJwt_contract refCompare sampleEnv sampleUsers _
      (Reachable.login ∅ ⟨.str "a@b.c", .str "pw"⟩ 3 Reachable.init)
      foreignToken 4 ⟨"JsonWebTokenError", "invalid signature"⟩
      (by decide) (by decide) (by decide)).1,
   (refresh_foreign_token_rejected refJwt refJwt_contract refCompare sampleEnv sampleUsers _
      (Reachable.login ∅ ⟨.str "a@b.c", .str "pw"⟩ 3 Reachable.init)
      foreignToken 4 ⟨"JsonWebTokenError", "invalid signature"⟩
      (by decide) (by decide) (by decide)).2.1⟩

end JwtAuth
